import Mathlib

/-!
Shallow embedding of the ADAM blockchain-governance client
(`blockchain/python/crew_blockchain_integration.py`,
`blockchain/python/crew_with_blockchain.py`,
`blockchain/python/blockchain_client.py`).

Pure helpers (`_map_severity`, `_generate_decision_hash`, `_generate_event_id`,
`detect_anomalies_from_readings`, the `sign_decision` message construction,
`_send_transaction`'s receipt handling) are translated directly.  The stateful
coordinator pass `run_detection_with_blockchain_validation` and the
integrator methods it calls are translated as functions of an `Oracle` that
records, field by field, the outcome of each external call the pass can make
(a `.error` value is a raised exception); every state-changing ledger call the
pass performs is accumulated in a `List LedgerOp` trace.  The keccak256 digest
is passed in as a function parameter of the embedding.  Python floats are
modelled as rationals, Python `int()` as truncation toward zero, and Python
truthiness of optional ints (`None`/`0` falsy) as `optTruthy`.

The Consensus Evaluator of spec section 4.6 has no client-side source under
`src/` (it lives in the ConsensusValidator contract); it is modelled from the
spec's words, and marked so.
-/

namespace ADAM

/-- Decision payloads (Python dicts with string values) as association lists. -/
abbrev Payload := List (String × String)

/-- Severity enum value `SEVERITY_SAFE` of `CrewBlockchainIntegrator`. -/
def SEVERITY_SAFE : Nat := 0

/-- Severity enum value `SEVERITY_WARNING` of `CrewBlockchainIntegrator`. -/
def SEVERITY_WARNING : Nat := 1

/-- Severity enum value `SEVERITY_CRITICAL` of `CrewBlockchainIntegrator`. -/
def SEVERITY_CRITICAL : Nat := 2

/-- Decision type `DECISION_TYPE_CREW_FORMATION`. -/
def DECISION_TYPE_CREW_FORMATION : Nat := 0

/-- Decision type `DECISION_TYPE_ANOMALY_DETECTION`. -/
def DECISION_TYPE_ANOMALY_DETECTION : Nat := 1

/-- Decision type `DECISION_TYPE_ACTION_EXECUTION`. -/
def DECISION_TYPE_ACTION_EXECUTION : Nat := 2

/-- The `severity_map` dict literal inside `_map_severity`. -/
def severity_map : List (String × Nat) :=
  [("safe", SEVERITY_SAFE), ("normal", SEVERITY_SAFE),
   ("warning", SEVERITY_WARNING),
   ("critical", SEVERITY_CRITICAL), ("emergency", SEVERITY_CRITICAL)]

/-- Python `str.lower()`: lower-case every character (structurally, so that it
evaluates inside the kernel). -/
def pyLower (s : String) : String := ⟨s.data.map Char.toLower⟩

/-- Python string slicing `s[:n]`: the first `n` characters. -/
def pyTake (s : String) (n : Nat) : String := ⟨s.data.take n⟩

/-- The method `_map_severity`: `severity_map.get(severity_str.lower(), SEVERITY_WARNING)`. -/
def map_severity (severity_str : String) : Nat :=
  (severity_map.lookup (pyLower severity_str)).getD SEVERITY_WARNING

/-- Sorting of a payload's pairs by key, as `json.dumps(..., sort_keys=True)` orders them. -/
def sortByKey (p : Payload) : Payload :=
  List.insertionSort (fun a b => a.1 ≤ b.1) p

/-- JSON rendering of one key/value pair (string values). -/
def renderPair (kv : String × String) : String :=
  "\"" ++ kv.1 ++ "\": \"" ++ kv.2 ++ "\""

/-- Serialization of a string-valued dict in its own pair order
(`json.dumps` without `sort_keys`). -/
def dumps (p : Payload) : String :=
  "\x7b" ++ String.intercalate ", " (p.map renderPair) ++ "\x7d"

/-- Serialization with sorted keys: `json.dumps(decision_data, sort_keys=True)`. -/
def dumpsSorted (p : Payload) : String := dumps (sortByKey p)

/-- The method `_generate_decision_hash`: keccak of the sorted-key serialization
of the decision payload. -/
def generate_decision_hash (keccak : String → Nat) (decision_data : Payload) : Nat :=
  keccak (dumpsSorted decision_data)

/-- The event payload fields `_generate_event_id` reads. -/
structure EventData where
  timestamp : String
  node_id : String
deriving DecidableEq

/-- The string `_generate_event_id` hashes: `f"{timestamp}-{node_id}"`, built
from the raw timestamp (the source performs no same-event-window rounding). -/
def eventString (e : EventData) : String := e.timestamp ++ "-" ++ e.node_id

/-- The method `_generate_event_id`: keccak of the raw event string. -/
def generate_event_id (keccak : String → Nat) (e : EventData) : Nat :=
  keccak (eventString e)

/-- One 256-bit word, the size of a `bytes32` / `uint256` ABI slot. -/
def WORD : Nat := 2 ^ 256

/-- `Web3.solidity_keccak(['bytes32','uint256'], [decision_hash, nonce])`'s
pre-image: the packed encoding of a 32-byte hash word followed by a 32-byte
nonce word, read as one natural number. -/
def encodeHashNonce (decision_hash nonce : Nat) : Nat :=
  (decision_hash % WORD) * WORD + nonce % WORD

/-- The EIP-191 tag bytes `encode_defunct` prepends, read as one natural number. -/
def ethSignTag : Nat :=
  "\x19Ethereum Signed Message:\n32".foldl (fun a c => a * 256 + c.toNat) 0

/-- The message `sign_decision` actually signs: `encode_defunct` applied to
`keccak(decision_hash ‖ nonce)` (the 32-byte digest placed after the tag). -/
def sign_decision_message (keccak : Nat → Nat) (decision_hash nonce : Nat) : Nat :=
  ethSignTag * WORD + keccak (encodeHashNonce decision_hash nonce) % WORD

/-- Transaction receipt fields `_send_transaction` reads, together with the
ledger-side rejection reason (held by the ledger, never read by the client). -/
structure Receipt where
  status : Nat
  blockNumber : Nat
  revert_reason : String
deriving DecidableEq

/-- Outcome of `_send_transaction` once a receipt is confirmed: the tx hash on
status 1, otherwise the raised exception's message. -/
def send_transaction_outcome (tx_hash : String) (receipt : Receipt) : Except String String :=
  if receipt.status = 1 then .ok tx_hash else .error "Transaction failed"

/-- Verdicts of the Consensus Evaluator (spec 4.6). -/
inductive Verdict
  | PASS
  | FAIL
  | PENDING
deriving DecidableEq

/-- A vote tally: voter address to approved flag. -/
abbrev Votes := List (String × Bool)

/-- Count of approving votes in a tally. -/
def countApproved (votes : Votes) : Nat := (votes.filter (fun v => v.2)).length

/-- Count of disapproving votes in a tally. -/
def countRejected (votes : Votes) : Nat := (votes.filter (fun v => !v.2)).length

/-- Modelled from the spec: the Consensus Evaluator of section 4.6 has no
client-side source under `src/` (it lives in the ConsensusValidator contract).
Following the spec's words: PASS when approvals/total reach the consensus
percentage AND `total_eligible > 0`; quorum over an empty denominator is FAIL
("must treat quorum over an empty denominator as FAIL (never vacuously PASS)",
"`total_eligible=0` → always FAIL"); FAIL when disapprovals exceed the
complement (PASS no longer mathematically reachable); otherwise PENDING. -/
def evaluate (votes : Votes) (total_eligible consensus_percentage : Nat) : Verdict :=
  if total_eligible = 0 then .FAIL
  else if countApproved votes * 100 ≥ consensus_percentage * total_eligible then .PASS
  else if countRejected votes * 100 > (100 - consensus_percentage) * total_eligible then .FAIL
  else .PENDING

/-- A sensor reading, with the fields the detection pass reads. -/
structure Reading where
  methane_ppm : ℚ
  node_id : String
deriving DecidableEq

/-- One detected anomaly: `{"reason": ..., "reading": r}`. -/
structure Anomaly where
  reason : String
  reading : Reading
deriving DecidableEq

/-- The function `detect_anomalies_from_readings`: keep every reading at or
above the absolute threshold. -/
def detect_anomalies_from_readings (readings : List Reading) (absolute_threshold : ℚ) :
    List Anomaly :=
  readings.filterMap (fun r =>
    if r.methane_ppm ≥ absolute_threshold then
      some ⟨"ppm >= " ++ toString absolute_threshold, r⟩
    else none)

/-- Python `int()` on a rational: truncation toward zero. -/
def pyInt (q : ℚ) : Int := q.num.tdiv (q.den : Int)

/-- Python `max` over a list (only ever applied to nonempty lists here). -/
def pyMax : List ℚ → ℚ
  | [] => 0
  | x :: xs => xs.foldl max x

/-- One state-changing ledger call performed during a pass. -/
inductive LedgerOp
  | formCrew (event_id : Nat) (members : List String) (methane_ppm : Int)
  | logDecision (crew_id : Nat) (decision_hash : Nat) (decision_type severity : Nat)
      (methane_ppm : Int) (notes : String)
  | requestConsensus (crew_id : Nat) (proposal_hash : Nat)
  | castVote (request_id : Nat) (approved : Bool)
  | markExecuted (decision_id : Nat)
deriving DecidableEq

/-- The `CrewBlockchainIntegrator` state the embedded methods read. -/
structure Integrator where
  enable_blockchain : Bool
deriving DecidableEq

/-- Outcomes of the external calls a single detection pass can make.  Each
field is the behavior of the corresponding collaborator or ledger call during
this pass; an `.error` value is an exception that call raises. -/
structure Oracle where
  keccak : String → Nat
  readings : List Reading
  crew_members : List String
  address : String
  now_iso : String
  formCrew : Except String (String × Nat)
  reasoner : Except String Payload
  isCritical : Bool
  signDecision : Except String Nat
  logDecision : Except String (String × Nat)
  requestConsensus : Except String (String × Nat)
  castVote : Except String String
  hasConsensus : Except String Bool
  sendEmail : Except String Unit
  markExecuted : Except String String
  send_to : List String

/-- Python truthiness of an optional int: `None` and `0` are falsy. -/
def optTruthy : Option Nat → Bool
  | none => false
  | some n => n != 0

/-- The method `validate_crew_formation`: log crew formation on chain,
returning `(success, crew_id, tx_hash)` and the ledger writes performed.  On
an exception it returns `(False, None, None)`. -/
def validate_crew_formation (integ : Integrator) (o : Oracle) (event_data : EventData)
    (crew_members : List String) (methane_ppm : ℚ) :
    (Bool × Option Nat × Option String) × List LedgerOp :=
  if !integ.enable_blockchain then ((true, none, none), [])
  else
    match o.formCrew with
    | .ok (tx_hash, crew_id) =>
        ((true, some crew_id, some tx_hash),
         [.formCrew (generate_event_id o.keccak event_data) crew_members (pyInt methane_ppm)])
    | .error _ => ((false, none, none), [])

/-- The method `validate_critical_decision`: when blockchain is enabled and
the level is critical, hash and sign the decision payload, log the decision,
request consensus, self-vote when this agent is a crew member, and read back
`has_consensus_passed`; the result is `(consensus_passed, decision_id,
tx_hash)` plus the ledger writes performed.  Any exception inside the try
block yields `(False, None, None)`, keeping the writes already made. -/
def validate_critical_decision (integ : Integrator) (o : Oracle) (crew_id : Nat)
    (decision_data : Payload) (crew_members : List String) (methane_ppm : ℚ) :
    (Bool × Option Nat × Option String) × List LedgerOp :=
  if !integ.enable_blockchain then ((true, none, none), [])
  else if !o.isCritical then ((true, none, none), [])
  else
    let decision_hash := generate_decision_hash o.keccak decision_data
    let severity := map_severity ((decision_data.lookup "severity").getD "critical")
    match o.signDecision with
    | .error _ => ((false, none, none), [])
    | .ok _ =>
      match o.logDecision with
      | .error _ => ((false, none, none), [])
      | .ok (tx_hash, decision_id) =>
        let t1 : List LedgerOp :=
          [.logDecision crew_id decision_hash DECISION_TYPE_ANOMALY_DETECTION severity
             (pyInt methane_ppm) (pyTake ((decision_data.lookup "explanation").getD "") 200)]
        match o.requestConsensus with
        | .error _ => ((false, none, none), t1)
        | .ok (_, request_id) =>
          let t2 := t1 ++ [.requestConsensus crew_id decision_hash]
          if o.address ∈ crew_members then
            match o.castVote with
            | .error _ => ((false, none, none), t2)
            | .ok _ =>
              let t3 := t2 ++ [.castVote request_id true]
              match o.hasConsensus with
              | .error _ => ((false, none, none), t3)
              | .ok consensus_passed =>
                ((consensus_passed, some decision_id, some tx_hash), t3)
          else
            match o.hasConsensus with
            | .error _ => ((false, none, none), t2)
            | .ok consensus_passed =>
              ((consensus_passed, some decision_id, some tx_hash), t2)

/-- The method `mark_action_executed`: skip when blockchain is disabled or the
decision id is `None`; otherwise call `mark_executed`, returning the tx hash
(or `None` on an exception) and the write performed. -/
def mark_action_executed (integ : Integrator) (o : Oracle) (decision_id : Option Nat) :
    Option String × List LedgerOp :=
  if !integ.enable_blockchain then (none, [])
  else
    match decision_id with
    | none => (none, [])
    | some d =>
      match o.markExecuted with
      | .ok tx_hash => (some tx_hash, [.markExecuted d])
      | .error _ => (none, [])

/-- The `blockchain_info` dict `run_detection_with_blockchain_validation`
builds up. -/
structure BlockchainInfo where
  crew_id : Option Nat := none
  decision_id : Option Nat := none
  consensus_passed : Option Bool := none
  transactions : List (String × String) := []
deriving DecidableEq

/-- The coordinator pass `run_detection_with_blockchain_validation`, returning
`(alert_sent, report_text, blockchain_info)` and the ledger writes performed.
`integ` is the module-global `blockchain_integrator` (possibly `None`),
`absolute_emergency_ppm` the configured threshold. -/
def run_detection_with_blockchain_validation (integ : Option Integrator) (o : Oracle)
    (absolute_emergency_ppm : ℚ) :
    (Bool × String × BlockchainInfo) × List LedgerOp :=
  let info0 : BlockchainInfo := {}
  if o.readings = [] then ((false, "No readings found.", info0), [])
  else
    let anomalies := detect_anomalies_from_readings o.readings absolute_emergency_ppm
    if anomalies = [] then ((false, "No anomalies found.", info0), [])
    else
      let max_ppm := pyMax (anomalies.map (fun a => a.reading.methane_ppm))
      let crewStep : Option Nat × BlockchainInfo × List LedgerOp :=
        match integ with
        | none => (none, info0, [])
        | some ig =>
          if ig.enable_blockchain = true ∧ max_ppm ≥ absolute_emergency_ppm then
            let event_data : EventData :=
              ⟨o.now_iso, (anomalies.head?.map (fun a => a.reading.node_id)).getD "unknown"⟩
            match validate_crew_formation ig o event_data o.crew_members max_ppm with
            | ((success, cid, tx_hash), t) =>
              if success = true ∧ optTruthy cid = true then
                (cid,
                 { info0 with
                   crew_id := cid
                   transactions := [("crew_formation", tx_hash.getD "")] },
                 t)
              else (cid, info0, t)
          else (none, info0, [])
      let crew_id := crewStep.1
      let info1 := crewStep.2.1
      let tA := crewStep.2.2
      let reasonStep : Payload × String :=
        match o.reasoner with
        | .ok report => (report, dumps report)
        | .error e =>
          let report_text := "LLM reasoner failed: " ++ e
          ([("severity", "critical"), ("explanation", report_text)], report_text)
      let report := reasonStep.1
      let report_text := reasonStep.2
      let decisionStep : Option Nat × BlockchainInfo × List LedgerOp :=
        match integ with
        | none => (none, info1, [])
        | some ig =>
          if ig.enable_blockchain = true ∧ optTruthy crew_id = true ∧
              max_ppm ≥ absolute_emergency_ppm then
            match validate_critical_decision ig o (crew_id.getD 0) report o.crew_members
                max_ppm with
            | ((consensus_passed, did, tx_hash), t) =>
              if optTruthy did = true then
                (did,
                 { info1 with
                   decision_id := did
                   consensus_passed := some consensus_passed
                   transactions :=
                     info1.transactions ++ [("decision_log", tx_hash.getD "")] },
                 t)
              else (did, info1, t)
          else (none, info1, [])
      let decision_id := decisionStep.1
      let info2 := decisionStep.2.1
      let tB := decisionStep.2.2
      if o.send_to = [] then
        ((false, report_text ++ "\n\nNo recipients configured.", info2), tA ++ tB)
      else
        match o.sendEmail with
        | .error e => ((false, report_text ++ "\n\nEmail error: " ++ e, info2), tA ++ tB)
        | .ok _ =>
          let markStep : Option String × List LedgerOp :=
            match integ with
            | none => (none, [])
            | some ig =>
              if optTruthy decision_id = true then mark_action_executed ig o decision_id
              else (none, [])
          let info3 :=
            match markStep.1 with
            | some tx_hash =>
              { info2 with
                transactions := info2.transactions ++ [("mark_executed", tx_hash)] }
            | none => info2
          ((true, report_text, info3), tA ++ tB ++ markStep.2)

/-- A fully populated oracle for concrete runs: one critical reading, every
external call succeeding, consensus not yet reached. -/
def baseOracle : Oracle where
  keccak := String.length
  readings := [⟨6000, "node-1"⟩]
  crew_members := ["0xA"]
  address := "0xA"
  now_iso := "2025-01-01T00:00:00+00:00"
  formCrew := .ok ("0xf1", 1)
  reasoner := .ok [("severity", "critical"), ("explanation", "methane spike")]
  isCritical := true
  signDecision := .ok 1
  logDecision := .ok ("0xd2", 5)
  requestConsensus := .ok ("0xc3", 7)
  castVote := .ok "0xv4"
  hasConsensus := .ok false
  sendEmail := .ok ()
  markExecuted := .ok "0xe5"
  send_to := ["ops@example.com"]

instance : IsTotal (String × String) (fun a b => a.1 ≤ b.1) := ⟨fun a b => le_total a.1 b.1⟩

instance : IsTrans (String × String) (fun a b => a.1 ≤ b.1) := ⟨fun _ _ _ => le_trans⟩

instance : IsAntisymm (String × String) (fun a b => a.1 < b.1) :=
  ⟨fun _ _ h1 h2 => (lt_asymm h1 h2).elim⟩

/-! Helper lemmas. -/

theorem sortByKey_perm (p : Payload) : List.Perm (sortByKey p) p :=
  List.perm_insertionSort _ p

theorem sortByKey_eq_of_perm {p q : Payload} (hpq : p.Perm q)
    (hnd : (p.map Prod.fst).Nodup) : sortByKey p = sortByKey q := by
  have hperm : List.Perm (sortByKey p) (sortByKey q) :=
    (sortByKey_perm p).trans (hpq.trans (sortByKey_perm q).symm)
  have hnd1 : ((sortByKey p).map Prod.fst).Nodup :=
    (((sortByKey_perm p).map Prod.fst).nodup_iff).mpr hnd
  have hnd2 : ((sortByKey q).map Prod.fst).Nodup :=
    (((sortByKey_perm q).map Prod.fst).nodup_iff).mpr ((hpq.map Prod.fst).nodup_iff.mp hnd)
  have hlt : ∀ r : Payload, r.Sorted (fun a b => a.1 ≤ b.1) →
      (r.map Prod.fst).Nodup → r.Sorted (fun a b : String × String => a.1 < b.1) := by
    intro r hs hn
    have hne : r.Pairwise (fun a b : String × String => a.1 ≠ b.1) := List.pairwise_map.mp hn
    exact (hs.and hne).imp (fun h => lt_of_le_of_ne h.1 h.2)
  exact List.eq_of_perm_of_sorted hperm
    (hlt _ (List.sorted_insertionSort _ p) hnd1)
    (hlt _ (List.sorted_insertionSort _ q) hnd2)

theorem detect_anomalies_eq_nil (readings : List Reading) (thr : ℚ)
    (h : ∀ r ∈ readings, r.methane_ppm < thr) :
    detect_anomalies_from_readings readings thr = [] := by
  rw [detect_anomalies_from_readings, List.filterMap_eq_nil_iff]
  intro r hr
  simp [not_le.mpr (h r hr)]

theorem mem_detect_anomalies_le {readings : List Reading} {thr : ℚ} {a : Anomaly}
    (h : a ∈ detect_anomalies_from_readings readings thr) : thr ≤ a.reading.methane_ppm := by
  rw [detect_anomalies_from_readings, List.mem_filterMap] at h
  obtain ⟨r, _, hfr⟩ := h
  by_cases hc : r.methane_ppm ≥ thr
  · rw [if_pos hc] at hfr
    cases hfr
    exact hc
  · rw [if_neg hc] at hfr
    cases hfr

theorem le_foldl_max (a b : ℚ) (l : List ℚ) (h : a ≤ b) : a ≤ l.foldl max b := by
  induction l generalizing b with
  | nil => exact h
  | cons x xs ih => exact ih _ (le_trans h (le_max_left b x))

theorem le_pyMax (t : ℚ) (l : List ℚ) (hne : l ≠ []) (h : ∀ x ∈ l, t ≤ x) : t ≤ pyMax l := by
  cases l with
  | nil => exact absurd rfl hne
  | cons x xs => exact le_foldl_max _ _ _ (h x (List.mem_cons_self x xs))

theorem thr_le_pyMax_anomalies {readings : List Reading} {thr : ℚ}
    (hne : detect_anomalies_from_readings readings thr ≠ []) :
    thr ≤ pyMax ((detect_anomalies_from_readings readings thr).map
      (fun a => a.reading.methane_ppm)) := by
  apply le_pyMax
  · simp [hne]
  · intro x hx
    simp only [List.mem_map] at hx
    obtain ⟨a, ha, rfl⟩ := hx
    exact mem_detect_anomalies_le ha

theorem validate_critical_decision_logs (ig : Integrator) (o : Oracle) (crew_id : Nat)
    (dd : Payload) (cm : List String) (ppm : ℚ) (s : Nat) (dtx : String) (d : Nat)
    (hen : ig.enable_blockchain = true) (hic : o.isCritical = true)
    (hsig : o.signDecision = .ok s) (hlog : o.logDecision = .ok (dtx, d)) :
    LedgerOp.logDecision crew_id (generate_decision_hash o.keccak dd)
        DECISION_TYPE_ANOMALY_DETECTION
        (map_severity ((dd.lookup "severity").getD "critical"))
        (pyInt ppm) (pyTake ((dd.lookup "explanation").getD "") 200)
      ∈ (validate_critical_decision ig o crew_id dd cm ppm).2 := by
  rcases hr : o.requestConsensus with e | ⟨ctx, rid⟩
  · simp [validate_critical_decision, hen, hic, hsig, hlog, hr]
  · by_cases hm : o.address ∈ cm
    · rcases hv : o.castVote with ev | vtx
      · simp [validate_critical_decision, hen, hic, hsig, hlog, hr, hm, hv]
      · rcases hc : o.hasConsensus with ec | b <;>
          simp [validate_critical_decision, hen, hic, hsig, hlog, hr, hm, hv, hc]
    · rcases hc : o.hasConsensus with ec | b <;>
        simp [validate_critical_decision, hen, hic, hsig, hlog, hr, hm, hc]

theorem validate_critical_decision_success_eq (ig : Integrator) (o : Oracle) (crew_id : Nat)
    (dd : Payload) (cm : List String) (ppm : ℚ) (s : Nat) (dtx : String) (d : Nat)
    (ctx : String) (rid : Nat) (b : Bool)
    (hen : ig.enable_blockchain = true) (hic : o.isCritical = true)
    (hsig : o.signDecision = .ok s) (hlog : o.logDecision = .ok (dtx, d))
    (hreq : o.requestConsensus = .ok (ctx, rid)) (hm : o.address ∉ cm)
    (hcons : o.hasConsensus = .ok b) :
    validate_critical_decision ig o crew_id dd cm ppm =
      ((b, some d, some dtx),
       [LedgerOp.logDecision crew_id (generate_decision_hash o.keccak dd)
          DECISION_TYPE_ANOMALY_DETECTION
          (map_severity ((dd.lookup "severity").getD "critical"))
          (pyInt ppm) (pyTake ((dd.lookup "explanation").getD "") 200),
        LedgerOp.requestConsensus crew_id (generate_decision_hash o.keccak dd)]) := by
  simp [validate_critical_decision, hen, hic, hsig, hlog, hreq, hm, hcons]

/-! Claim theorems. -/

/-- C1, counterexample: in a concrete pass where `has_consensus_passed` returns
false (the cycle records `consensus_passed = some false`, i.e. PENDING), the
mark-executed ledger call is nevertheless made for the logged decision id 5 —
the coordinator gates it only on the decision id and the email send, not on
consensus. -/
theorem mark_executed_without_consensus_cex :
    (run_detection_with_blockchain_validation (some ⟨true⟩)
        baseOracle 5000).1.2.2.consensus_passed = some false ∧
      LedgerOp.markExecuted 5 ∈
        (run_detection_with_blockchain_validation (some ⟨true⟩) baseOracle 5000).2 :=
  ⟨by decide, by decide⟩

/-- C1, amended: in every detection pass that logs a decision with a truthy
decision id and whose alert email succeeds, `mark_action_executed` is invoked
for that decision id even though `has_consensus_passed` returned false; the
pass merely records `consensus_passed = some false`. -/
theorem mark_executed_despite_pending_consensus (ig : Integrator) (o : Oracle) (thr : ℚ)
    (ftx : String) (cid : Nat) (p : Payload) (s : Nat) (dtx : String) (d : Nat)
    (ctx : String) (rid : Nat) (mtx : String)
    (hen : ig.enable_blockchain = true)
    (hA : detect_anomalies_from_readings o.readings thr ≠ [])
    (hfc : o.formCrew = .ok (ftx, cid)) (hcid : cid ≠ 0)
    (hre : o.reasoner = .ok p)
    (hic : o.isCritical = true)
    (hsig : o.signDecision = .ok s)
    (hlog : o.logDecision = .ok (dtx, d)) (hd : d ≠ 0)
    (hreq : o.requestConsensus = .ok (ctx, rid))
    (hm : o.address ∉ o.crew_members)
    (hcons : o.hasConsensus = .ok false)
    (hst : o.send_to ≠ [])
    (hse : o.sendEmail = .ok ())
    (hme : o.markExecuted = .ok mtx) :
    (run_detection_with_blockchain_validation (some ig) o thr).1.2.2.consensus_passed =
        some false ∧
      LedgerOp.markExecuted d ∈
        (run_detection_with_blockchain_validation (some ig) o thr).2 := by
  have hre0 : o.readings ≠ [] := fun h => hA (by simp [detect_anomalies_from_readings, h])
  have hmax := thr_le_pyMax_anomalies hA
  have hvd := validate_critical_decision_success_eq ig o cid p o.crew_members
    (pyMax ((detect_anomalies_from_readings o.readings thr).map
      (fun a => a.reading.methane_ppm)))
    s dtx d ctx rid false
    hen hic hsig hlog hreq hm hcons
  constructor <;>
    simp [run_detection_with_blockchain_validation, validate_crew_formation,
      mark_action_executed, hre0, hA, hen, hfc, hre, hvd, hmax, optTruthy, hcid,
      hst, hse, hme, hd]

/-- C1, witness for the amended theorem at a concrete pass. -/
theorem mark_executed_despite_pending_consensus_witness :
    (run_detection_with_blockchain_validation (some ⟨true⟩)
        { baseOracle with address := "0xB" } 5000).1.2.2.consensus_passed = some false ∧
      LedgerOp.markExecuted 5 ∈ (run_detection_with_blockchain_validation (some ⟨true⟩)
        { baseOracle with address := "0xB" } 5000).2 :=
  mark_executed_despite_pending_consensus ⟨true⟩ { baseOracle with address := "0xB" } 5000
    "0xf1" 1 [("severity", "critical"), ("explanation", "methane spike")] 1 "0xd2" 5 "0xc3" 7
    "0xe5"
    rfl (by decide) rfl (by decide) rfl rfl rfl rfl (by decide) rfl (by decide) rfl
    (by decide) rfl rfl

/-- C2: the Consensus Evaluator is fail-safe on an empty crew — for every votes
mapping and every consensus percentage, `evaluate votes 0 pct` is FAIL (so never
PASS), and PASS is only ever returned when `total_eligible > 0`. -/
theorem evaluate_empty_crew_always_fail (votes : Votes) (pct : Nat) :
    evaluate votes 0 pct = Verdict.FAIL ∧
      ∀ total, evaluate votes total pct = Verdict.PASS → 0 < total := by
  refine ⟨by simp [evaluate], fun total h => ?_⟩
  rcases Nat.eq_zero_or_pos total with h0 | h0
  · subst h0
    simp [evaluate] at h
  · exact h0

/-- C3: two event payloads with the same `node_id` whose timestamps lie 10
seconds apart — inside one 30-second same-event window — hash different event
strings, because `_generate_event_id` hashes the raw timestamp and never
rounds it to the same-event window; their event ids therefore differ
(for any collision-free digest), and the claimed window-based identity fails. -/
theorem event_id_ignores_same_event_window :
    eventString ⟨"2025-01-01T00:00:00+00:00", "node-1"⟩ ≠
      eventString ⟨"2025-01-01T00:00:10+00:00", "node-1"⟩ := by decide

/-- C4: signatures are nonce-bound — for one decision hash and two distinct
nonces (both one word wide), the signed messages `sign_decision` constructs
differ, provided keccak is 32-byte-valued and collision-free on the two
packed pre-images, because the packed encoding `decision_hash ‖ nonce` is
injective in the nonce. -/
theorem sign_decision_message_nonce_binding (keccak : Nat → Nat) (dh n1 n2 : Nat)
    (hn1 : n1 < WORD) (hn2 : n2 < WORD) (hne : n1 ≠ n2)
    (hout : ∀ x, keccak x < WORD)
    (hcoll : keccak (encodeHashNonce dh n1) = keccak (encodeHashNonce dh n2) →
      encodeHashNonce dh n1 = encodeHashNonce dh n2) :
    sign_decision_message keccak dh n1 ≠ sign_decision_message keccak dh n2 := by
  intro heq
  unfold sign_decision_message at heq
  have h1 : keccak (encodeHashNonce dh n1) % WORD = keccak (encodeHashNonce dh n2) % WORD :=
    Nat.add_left_cancel heq
  rw [Nat.mod_eq_of_lt (hout _), Nat.mod_eq_of_lt (hout _)] at h1
  have h2 := hcoll h1
  unfold encodeHashNonce at h2
  have h3 : n1 % WORD = n2 % WORD := Nat.add_left_cancel h2
  rw [Nat.mod_eq_of_lt hn1, Nat.mod_eq_of_lt hn2] at h3
  exact hne h3

/-- C4, witness at a concrete hash and nonce pair. -/
theorem sign_decision_message_nonce_binding_witness :
    sign_decision_message (fun x => x % WORD) 0 1 ≠
      sign_decision_message (fun x => x % WORD) 0 2 :=
  sign_decision_message_nonce_binding (fun x => x % WORD) 0 1 2
    (by norm_num [WORD]) (by norm_num [WORD]) (by norm_num)
    (fun x => Nat.mod_lt x (by norm_num [WORD]))
    (by intro h; norm_num [encodeHashNonce, WORD] at h ⊢)

/-- C5: decision hashing is canonical and order-independent — two decision
payloads holding exactly the same key/value pairs (in any order, keys
distinct) yield identical `_generate_decision_hash` values, because the digest
is computed over the sorted-key serialization. -/
theorem decision_hash_canonical (keccak : String → Nat) (p q : Payload)
    (hpq : p.Perm q) (hnd : (p.map Prod.fst).Nodup) :
    generate_decision_hash keccak p = generate_decision_hash keccak q := by
  unfold generate_decision_hash dumpsSorted
  rw [sortByKey_eq_of_perm hpq hnd]

/-- C5, witness at two concrete permuted payloads. -/
theorem decision_hash_canonical_witness :
    List.Perm ([("b", "2"), ("a", "1")] : Payload) [("a", "1"), ("b", "2")] ∧
      generate_decision_hash String.length [("b", "2"), ("a", "1")] =
        generate_decision_hash String.length [("a", "1"), ("b", "2")] :=
  ⟨by decide, decision_hash_canonical String.length _ _ (by decide) (by decide)⟩

/-- C6: governance bypass for non-critical events — when every reading's
methane level is below the critical threshold, the detection pass returns
early with no alert, an untouched `blockchain_info`, and an empty ledger-write
trace: no crew formation, no decision logging, no consensus request, no vote. -/
theorem noncritical_pass_no_ledger_writes (integ : Option Integrator) (o : Oracle) (thr : ℚ)
    (h : ∀ r ∈ o.readings, r.methane_ppm < thr) :
    (run_detection_with_blockchain_validation integ o thr).2 = [] ∧
      (run_detection_with_blockchain_validation integ o thr).1.1 = false ∧
      (run_detection_with_blockchain_validation integ o thr).1.2.2 = {} := by
  have hA : detect_anomalies_from_readings o.readings thr = [] :=
    detect_anomalies_eq_nil _ _ h
  by_cases hre : o.readings = [] <;>
    simp [run_detection_with_blockchain_validation, hre, hA]

/-- C6, witness: a 1000 ppm reading against a 5000 ppm threshold. -/
theorem noncritical_pass_no_ledger_writes_witness :
    (run_detection_with_blockchain_validation (some ⟨true⟩)
        { baseOracle with readings := [⟨1000, "node-1"⟩] } 5000).2 = [] ∧
      (run_detection_with_blockchain_validation (some ⟨true⟩)
        { baseOracle with readings := [⟨1000, "node-1"⟩] } 5000).1.1 = false ∧
      (run_detection_with_blockchain_validation (some ⟨true⟩)
        { baseOracle with readings := [⟨1000, "node-1"⟩] } 5000).1.2.2 = {} :=
  noncritical_pass_no_ledger_writes _ _ _ (by decide)

/-- C7: `_map_severity` is the fixed closed table — case-insensitively,
`safe` and `normal` map to Safe (0), `warning` to Warning (1), `critical` and
`emergency` to Critical (2), and every other string to the default
Warning (1). -/
theorem map_severity_closed_table (s : String) :
    map_severity s =
      if pyLower s = "safe" ∨ pyLower s = "normal" then SEVERITY_SAFE
      else if pyLower s = "warning" then SEVERITY_WARNING
      else if pyLower s = "critical" ∨ pyLower s = "emergency" then SEVERITY_CRITICAL
      else SEVERITY_WARNING := by
  simp only [map_severity, severity_map, List.lookup]
  cases hb1 : pyLower s == "safe" <;> cases hb2 : pyLower s == "normal" <;>
    cases hb3 : pyLower s == "warning" <;> cases hb4 : pyLower s == "critical" <;>
      cases hb5 : pyLower s == "emergency" <;>
        simp_all [SEVERITY_SAFE, SEVERITY_WARNING, SEVERITY_CRITICAL]

/-- C8: reasoning failure is non-fatal and fail-safe-high — in every pass with
anomalies where the reasoning collaborator raises and the ledger accepts the
subsequent log, the decision logged on chain carries the fallback payload
`severity = critical` (hashed as the fallback dict) with the failure message
as its notes. -/
theorem reasoning_failure_fallback_logged (ig : Integrator) (o : Oracle) (thr : ℚ)
    (msg ftx : String) (cid : Nat) (s : Nat) (dtx : String) (d : Nat)
    (hen : ig.enable_blockchain = true)
    (hA : detect_anomalies_from_readings o.readings thr ≠ [])
    (hfc : o.formCrew = .ok (ftx, cid)) (hcid : cid ≠ 0)
    (hre : o.reasoner = .error msg)
    (hic : o.isCritical = true)
    (hsig : o.signDecision = .ok s)
    (hlog : o.logDecision = .ok (dtx, d)) :
    LedgerOp.logDecision cid
        (generate_decision_hash o.keccak
          [("severity", "critical"), ("explanation", "LLM reasoner failed: " ++ msg)])
        DECISION_TYPE_ANOMALY_DETECTION SEVERITY_CRITICAL
        (pyInt (pyMax ((detect_anomalies_from_readings o.readings thr).map
          (fun a => a.reading.methane_ppm))))
        (pyTake ("LLM reasoner failed: " ++ msg) 200)
      ∈ (run_detection_with_blockchain_validation (some ig) o thr).2 := by
  have hre0 : o.readings ≠ [] := by
    intro h
    exact hA (by simp [detect_anomalies_from_readings, h])
  have hmax := thr_le_pyMax_anomalies hA
  have hmem := validate_critical_decision_logs ig o cid
    [("severity", "critical"), ("explanation", "LLM reasoner failed: " ++ msg)]
    o.crew_members
    (pyMax ((detect_anomalies_from_readings o.readings thr).map
      (fun a => a.reading.methane_ppm)))
    s dtx d
    hen hic hsig hlog
  have hlk : ((([("severity", "critical"),
      ("explanation", "LLM reasoner failed: " ++ msg)] : Payload).lookup
        "severity").getD "critical") = "critical" := rfl
  have hlk2 : ((([("severity", "critical"),
      ("explanation", "LLM reasoner failed: " ++ msg)] : Payload).lookup
        "explanation").getD "") = "LLM reasoner failed: " ++ msg := rfl
  have hsev : map_severity "critical" = SEVERITY_CRITICAL := by decide
  rw [hlk, hlk2, hsev] at hmem
  rcases hvd : validate_critical_decision ig o cid
      [("severity", "critical"), ("explanation", "LLM reasoner failed: " ++ msg)]
      o.crew_members (pyMax ((detect_anomalies_from_readings o.readings thr).map
        (fun a => a.reading.methane_ppm))) with ⟨⟨cp, did, tx⟩, t⟩
  rw [hvd] at hmem
  simp only [Prod.snd] at hmem
  simp [run_detection_with_blockchain_validation, validate_crew_formation,
    hre0, hA, hen, hfc, hre, hvd, hmax, optTruthy, hcid]
  rcases did with _ | dn
  · by_cases hst : o.send_to = [] <;> rcases hse : o.sendEmail with ee | u <;>
      simp [hst, hse, hmem]
  · by_cases hdn : (dn != 0) = true <;>
      by_cases hst : o.send_to = [] <;> rcases hse : o.sendEmail with ee | u <;>
        simp [hst, hse, hdn, hmem, mark_action_executed]

/-- C8, witness at a concrete pass whose reasoner raises `timeout`. -/
theorem reasoning_failure_fallback_logged_witness :
    LedgerOp.logDecision 1
        (generate_decision_hash String.length
          [("severity", "critical"), ("explanation", "LLM reasoner failed: " ++ "timeout")])
        DECISION_TYPE_ANOMALY_DETECTION SEVERITY_CRITICAL
        (pyInt (pyMax ((detect_anomalies_from_readings [⟨6000, "node-1"⟩] 5000).map
          (fun a => a.reading.methane_ppm))))
        (pyTake ("LLM reasoner failed: " ++ "timeout") 200)
      ∈ (run_detection_with_blockchain_validation (some ⟨true⟩)
          { baseOracle with reasoner := .error "timeout" } 5000).2 :=
  reasoning_failure_fallback_logged ⟨true⟩ { baseOracle with reasoner := .error "timeout" }
    5000 "timeout" "0xf1" 1 1 "0xd2" 5
    rfl (by decide) rfl (by decide) rfl rfl rfl rfl

/-- C9, counterexample: a rejected submission raises the fixed message
`Transaction failed` whatever the ledger's rejection reason was — two receipts
rejected for different reasons produce identical errors, so the raised error
carries no rejection reason, contrary to the claimed `LedgerRejection
carrying the rejection reason`. -/
theorem send_transaction_error_carries_no_reason :
    send_transaction_outcome "0xabc" ⟨0, 7, "stale nonce"⟩ =
        Except.error "Transaction failed" ∧
      send_transaction_outcome "0xabc" ⟨0, 7, "quorum not met"⟩ =
        Except.error "Transaction failed" :=
  ⟨rfl, rfl⟩

/-- C9, amended: a submission whose receipt is not success always raises a
generic exception with the fixed message `Transaction failed` (no reason
attached), and the integrator's public entry point catches it and returns the
structured status `(False, None, None)` with no ledger write recorded, never a
raw exception. -/
theorem rejected_submission_structured_status (tx_hash : String) (r : Receipt)
    (ig : Integrator) (o : Oracle) (ed : EventData) (cm : List String) (ppm : ℚ) (e : String)
    (hr : r.status ≠ 1) (hen : ig.enable_blockchain = true) (hfc : o.formCrew = .error e) :
    send_transaction_outcome tx_hash r = Except.error "Transaction failed" ∧
      validate_crew_formation ig o ed cm ppm = ((false, none, none), []) :=
  ⟨by simp [send_transaction_outcome, hr], by simp [validate_crew_formation, hen, hfc]⟩

/-- C9, witness at a concrete rejected receipt and a concrete failing pass. -/
theorem rejected_submission_structured_status_witness :
    send_transaction_outcome "0xabc" ⟨0, 7, "reverted"⟩ = Except.error "Transaction failed" ∧
      validate_crew_formation ⟨true⟩ { baseOracle with formCrew := .error "reverted" }
        ⟨"2025-01-01T00:00:00+00:00", "node-1"⟩ ["0xA"] 6000 = ((false, none, none), []) :=
  rejected_submission_structured_status "0xabc" ⟨0, 7, "reverted"⟩ ⟨true⟩
    { baseOracle with formCrew := .error "reverted" }
    ⟨"2025-01-01T00:00:00+00:00", "node-1"⟩ ["0xA"] 6000 "reverted"
    (by decide) rfl rfl

/-- C10: `validate_critical_decision` with blockchain disabled, or with a
non-critical methane level, returns `(True, None, None)` and performs no
ledger write — no decision logged, no consensus requested, no vote cast. -/
theorem validate_critical_decision_bypass (ig : Integrator) (o : Oracle)
    (crew_id : Nat) (dd : Payload) (cm : List String) (ppm : ℚ)
    (h : ig.enable_blockchain = false ∨ o.isCritical = false) :
    validate_critical_decision ig o crew_id dd cm ppm = ((true, none, none), []) := by
  rcases h with h | h
  · simp [validate_critical_decision, h]
  · by_cases he : ig.enable_blockchain <;> simp [validate_critical_decision, he, h]

/-- C10, witness at a concrete non-critical call. -/
theorem validate_critical_decision_bypass_witness :
    validate_critical_decision ⟨true⟩ { baseOracle with isCritical := false } 1
      [("severity", "critical")] ["0xA"] 6000 = ((true, none, none), []) :=
  validate_critical_decision_bypass _ _ _ _ _ _ (Or.inr rfl)

end ADAM
